import Mathlib

/-!
Shallow embedding of the PYFastAPI chat backend core:
the WebSocket `ConnectionManager` (presence registry and per-user
conversation directory), and the REST endpoint handlers for
conversations, messages, reactions and friendships, translated from
`backend/app/websocket/manager.py`, `backend/app/api/endpoints/*.py`
and `backend/app/api/friendships.py`.

UUIDs are modelled as `Nat`, timestamps as `Nat`, and the database
session as an explicit record of lists of rows.  Each endpoint handler
becomes a pure function returning `Except ApiError` together with the
updated database, the updated manager state, and the list of WebSocket
deliveries attempted.
-/

namespace ChatApp

/-- Python `dict` as an association list; `dictInsert` mirrors `d[k] = v`
(replace the existing binding, else append). -/
def dictInsert (k : Nat) (v : α) : List (Nat × α) → List (Nat × α)
  | [] => [(k, v)]
  | (k', v') :: rest => if k' = k then (k, v) :: rest else (k', v') :: dictInsert k v rest

/-- Python `del d[k]` / absence of `k`. -/
def dictErase (k : Nat) (d : List (Nat × α)) : List (Nat × α) :=
  d.filter (fun p => p.1 ≠ k)

/-- Python `d.get(k)` / `k in d`. -/
def dictFind? (k : Nat) (d : List (Nat × α)) : Option α :=
  (d.find? (fun p => p.1 = k)).map (·.2)

/-- Python `set.add`. -/
def setInsert (x : Nat) (s : List Nat) : List Nat :=
  if x ∈ s then s else s ++ [x]

/-- The typed WebSocket events the endpoints emit (`WSMessageType` plus the
payload fields the claims are about). -/
inductive WSEvent where
  | newMessage (conversationId messageId : Nat) (senderId : Option Nat) (content : String)
  | newConversation (conversationId : Nat)
  | messageEdited (conversationId messageId : Nat) (content : String)
  | messageDeleted (conversationId messageId : Nat)
  | messageRead (conversationId messageId readByUserId : Nat)
  | reactionAdded (conversationId messageId userId : Nat) (emoji : String)
  | reactionRemoved (conversationId messageId userId : Nat) (emoji : String)
  deriving Repr, DecidableEq

/-- One attempted push: the event handed to `target`'s live session. -/
structure Delivery where
  target : Nat
  event : WSEvent
  deriving Repr, DecidableEq

/-- `ConnectionManager` state: `active_connections` maps a user id to a
session handle, `user_conversations` maps a user id to the set of
conversation ids tracked for broadcasting. -/
structure Manager where
  active_connections : List (Nat × Nat)
  user_conversations : List (Nat × List Nat)
  deriving Repr, DecidableEq

def Manager.empty : Manager := ⟨[], []⟩

/-- `ConnectionManager.connect`: close any previous session for the user
(returned as the second component), then store the new one. -/
def Manager.connect (m : Manager) (user_id session : Nat) : Manager × Option Nat :=
  let closed := dictFind? user_id m.active_connections
  ({ m with active_connections := dictInsert user_id session m.active_connections }, closed)

/-- `ConnectionManager.disconnect`: drop the session and the conversation
tracking entry. -/
def Manager.disconnect (m : Manager) (user_id : Nat) : Manager :=
  { active_connections := dictErase user_id m.active_connections,
    user_conversations := dictErase user_id m.user_conversations }

/-- `ConnectionManager.add_user_to_conversation`. -/
def Manager.add_user_to_conversation (m : Manager) (user_id conversation_id : Nat) : Manager :=
  let cur := (dictFind? user_id m.user_conversations).getD []
  { m with user_conversations := dictInsert user_id (setInsert conversation_id cur) m.user_conversations }

/-- `ConnectionManager.remove_user_from_conversation` (defined in the
manager but never invoked by any endpoint). -/
def Manager.remove_user_from_conversation (m : Manager) (user_id conversation_id : Nat) : Manager :=
  match dictFind? user_id m.user_conversations with
  | none => m
  | some cs => { m with user_conversations := dictInsert user_id (cs.filter (· ≠ conversation_id)) m.user_conversations }

/-- `ConnectionManager.send_personal_message`: pushed only when the user
has a live session. -/
def Manager.send_personal_message (m : Manager) (ev : WSEvent) (user_id : Nat) : List Delivery :=
  if (dictFind? user_id m.active_connections).isSome then [⟨user_id, ev⟩] else []

/-- The recipients `broadcast_to_conversation` resolves: every user whose
`user_conversations` entry contains the conversation, minus the excluded
user. -/
def Manager.broadcast_targets (m : Manager) (conversation_id : Nat) (exclude : Option Nat) : List Nat :=
  m.user_conversations.filterMap
    (fun p => if conversation_id ∈ p.2 ∧ some p.1 ≠ exclude then some p.1 else none)

/-- `ConnectionManager.broadcast_to_conversation`. -/
def Manager.broadcast_to_conversation (m : Manager) (ev : WSEvent) (conversation_id : Nat)
    (exclude : Option Nat) : List Delivery :=
  (m.broadcast_targets conversation_id exclude).flatMap (m.send_personal_message ev)

/-- HTTP error taxonomy used by the handlers. -/
inductive ApiError where
  | notFound (detail : String)
  | forbidden (detail : String)
  | badRequest (detail : String)
  deriving Repr, DecidableEq

/-- `users` row. -/
structure User where
  id : Nat
  username : String
  display_name : String
  is_active : Bool
  deriving Repr, DecidableEq

inductive ConversationType where
  | direct
  | group
  deriving Repr, DecidableEq

/-- `conversations` row. -/
structure Conversation where
  id : Nat
  type : ConversationType
  title : Option String
  created_by : Nat
  created_at : Nat
  updated_at : Nat
  deriving Repr, DecidableEq

/-- `conversation_participants` row. -/
structure Participant where
  conversation_id : Nat
  user_id : Nat
  last_read_message_id : Option Nat
  deriving Repr, DecidableEq

/-- `messages` row; `is_deleted` is the source's string-encoded flag
("false" / "true"). -/
structure Message where
  id : Nat
  conversation_id : Nat
  sender_id : Option Nat
  content : String
  file_url : Option String
  file_type : Option String
  file_name : Option String
  created_at : Nat
  edited_at : Option Nat
  is_deleted : String
  delivered_at : Option Nat
  read_at : Option Nat
  read_by_user_id : Option Nat
  deriving Repr, DecidableEq

/-- `friendships` row; `status` is the source's string enum. -/
structure Friendship where
  id : Nat
  user_id : Nat
  friend_id : Nat
  status : String
  deriving Repr, DecidableEq

/-- `message_reactions` row. -/
structure Reaction where
  id : Nat
  message_id : Nat
  user_id : Nat
  emoji : String
  created_at : Nat
  deriving Repr, DecidableEq

/-- The relational store, with a fresh-id counter standing in for
`uuid4` generation. -/
structure DB where
  users : List User
  conversations : List Conversation
  participants : List Participant
  messages : List Message
  friendships : List Friendship
  reactions : List Reaction
  next_id : Nat
  deriving Repr, DecidableEq

def DB.findConversation (db : DB) (cid : Nat) : Option Conversation :=
  db.conversations.find? (fun c => c.id = cid)

def DB.findUser (db : DB) (uid : Nat) : Option User :=
  db.users.find? (fun u => u.id = uid)

def DB.findMessage (db : DB) (mid : Nat) : Option Message :=
  db.messages.find? (fun m => m.id = mid)

def DB.participantsOf (db : DB) (cid : Nat) : List Participant :=
  db.participants.filter (fun p => p.conversation_id = cid)

def DB.findParticipant (db : DB) (cid uid : Nat) : Option Participant :=
  db.participants.find? (fun p => p.conversation_id = cid ∧ p.user_id = uid)

def DB.isParticipant (db : DB) (cid uid : Nat) : Bool :=
  (db.findParticipant cid uid).isSome

/-- Friendship row between two users, either direction. -/
def DB.findFriendshipPair (db : DB) (a b : Nat) : Option Friendship :=
  db.friendships.find?
    (fun f => (f.user_id = a ∧ f.friend_id = b) ∨ (f.user_id = b ∧ f.friend_id = a))

/-- Accepted-friendship lookup used by the group-add endpoints. -/
def DB.hasAcceptedFriendship (db : DB) (a b : Nat) : Bool :=
  db.friendships.any
    (fun f => (((f.user_id = a ∧ f.friend_id = b) ∨ (f.user_id = b ∧ f.friend_id = a)) ∧
      f.status = "accepted" : Prop))

def DB.updateMessage (db : DB) (mid : Nat) (f : Message → Message) : DB :=
  { db with messages := db.messages.map (fun m => if m.id = mid then f m else m) }

def DB.updateConversation (db : DB) (cid : Nat) (f : Conversation → Conversation) : DB :=
  { db with conversations := db.conversations.map (fun c => if c.id = cid then f c else c) }

def DB.updateParticipant (db : DB) (cid uid : Nat) (f : Participant → Participant) : DB :=
  { db with participants :=
      db.participants.map (fun p => if p.conversation_id = cid ∧ p.user_id = uid then f p else p) }

/-- Successful handler outcome: new store, new manager state, attempted
WebSocket deliveries (in emission order). -/
structure HandlerResult where
  db : DB
  mgr : Manager
  events : List Delivery
  deriving Repr, DecidableEq

/-- `POST /messages/` (`send_message`). -/
def send_message (db : DB) (mgr : Manager) (me : User) (conversation_id : Nat)
    (content : String) (file_url file_type file_name : Option String) (now : Nat) :
    Except ApiError HandlerResult :=
  if ¬ db.isParticipant conversation_id me.id then
    .error (.forbidden "You are not a participant in this conversation")
  else
    match db.findConversation conversation_id with
    | none => .error (.notFound "Conversation not found")
    | some _ =>
      let mid := db.next_id
      let msg : Message :=
        { id := mid, conversation_id := conversation_id, sender_id := some me.id,
          content := content, file_url := file_url, file_type := file_type,
          file_name := file_name, created_at := now, edited_at := none,
          is_deleted := "false", delivered_at := none, read_at := none,
          read_by_user_id := none }
      let db1 := { db with messages := db.messages ++ [msg], next_id := db.next_id + 1 }
      let db2 := db1.updateConversation conversation_id (fun c => { c with updated_at := msg.created_at })
      let ev := WSEvent.newMessage conversation_id mid (some me.id) content
      .ok ⟨db2, mgr, mgr.broadcast_to_conversation ev conversation_id none⟩

/-- `PUT /messages/{message_id}` (`edit_message`). -/
def edit_message (db : DB) (mgr : Manager) (me : User) (message_id : Nat)
    (new_content : String) (now : Nat) : Except ApiError HandlerResult :=
  match db.findMessage message_id with
  | none => .error (.notFound "Message not found")
  | some msg =>
    if msg.sender_id ≠ some me.id then
      .error (.forbidden "You can only edit your own messages")
    else if msg.is_deleted = "true" then
      .error (.badRequest "Cannot edit deleted messages")
    else
      let db1 := db.updateMessage message_id
        (fun m => { m with content := new_content, edited_at := some now })
      let ev := WSEvent.messageEdited msg.conversation_id message_id new_content
      .ok ⟨db1, mgr, mgr.broadcast_to_conversation ev msg.conversation_id none⟩

/-- `DELETE /messages/{message_id}` (`delete_message`, soft delete). -/
def delete_message (db : DB) (mgr : Manager) (me : User) (message_id : Nat) :
    Except ApiError HandlerResult :=
  match db.findMessage message_id with
  | none => .error (.notFound "Message not found")
  | some msg =>
    if msg.sender_id ≠ some me.id then
      .error (.forbidden "You can only delete your own messages")
    else if msg.is_deleted = "true" then
      .error (.badRequest "Message already deleted")
    else
      let db1 := db.updateMessage message_id (fun m =>
        { m with is_deleted := "true", content := "This message was deleted",
                 file_url := none, file_type := none, file_name := none })
      let ev := WSEvent.messageDeleted msg.conversation_id message_id
      .ok ⟨db1, mgr, mgr.broadcast_to_conversation ev msg.conversation_id none⟩

/-- `PUT /messages/{message_id}/read` (`mark_message_as_read`). -/
def mark_message_as_read (db : DB) (mgr : Manager) (me : User) (message_id : Nat)
    (now : Nat) : Except ApiError HandlerResult :=
  match db.findMessage message_id with
  | none => .error (.notFound "Message not found")
  | some msg =>
    match db.findParticipant msg.conversation_id me.id with
    | none => .error (.forbidden "You are not a participant in this conversation")
    | some _ =>
      if msg.sender_id = some me.id then
        .error (.badRequest "Cannot mark your own message as read")
      else
        let db1 := db.updateMessage message_id
          (fun m => { m with read_at := some now, read_by_user_id := some me.id })
        let db2 := db1.updateParticipant msg.conversation_id me.id
          (fun p => { p with last_read_message_id := some message_id })
        let ev := WSEvent.messageRead msg.conversation_id message_id me.id
        .ok ⟨db2, mgr, mgr.broadcast_to_conversation ev msg.conversation_id (some me.id)⟩

/-- `POST /messages/{message_id}/reactions` (`add_reaction`). -/
def add_reaction (db : DB) (mgr : Manager) (me : User) (message_id : Nat)
    (emoji : String) (now : Nat) : Except ApiError HandlerResult :=
  match db.findMessage message_id with
  | none => .error (.notFound "Message not found")
  | some msg =>
    if ¬ db.isParticipant msg.conversation_id me.id then
      .error (.forbidden "You are not a participant in this conversation")
    else
      match db.reactions.find?
        (fun r => r.message_id = message_id ∧ r.user_id = me.id ∧ r.emoji = emoji) with
      | some _ => .ok ⟨db, mgr, []⟩
      | none =>
        let r : Reaction :=
          { id := db.next_id, message_id := message_id, user_id := me.id,
            emoji := emoji, created_at := now }
        let db1 := { db with reactions := db.reactions ++ [r], next_id := db.next_id + 1 }
        let ev := WSEvent.reactionAdded msg.conversation_id message_id me.id emoji
        .ok ⟨db1, mgr, mgr.broadcast_to_conversation ev msg.conversation_id none⟩

/-- `DELETE /messages/{message_id}/reactions/{emoji}` (`remove_reaction`). -/
def remove_reaction (db : DB) (mgr : Manager) (me : User) (message_id : Nat)
    (emoji : String) : Except ApiError HandlerResult :=
  match db.findMessage message_id with
  | none => .error (.notFound "Message not found")
  | some msg =>
    match db.reactions.find?
      (fun r => r.message_id = message_id ∧ r.user_id = me.id ∧ r.emoji = emoji) with
    | none => .error (.notFound "Reaction not found")
    | some r =>
      let db1 := { db with reactions := db.reactions.filter (fun r' => r'.id ≠ r.id) }
      let ev := WSEvent.reactionRemoved msg.conversation_id message_id me.id emoji
      .ok ⟨db1, mgr, mgr.broadcast_to_conversation ev msg.conversation_id none⟩

/-- `POST /friendships/send-request` (`send_friend_request`). -/
def send_friend_request (db : DB) (me : User) (friend_id : Nat) : Except ApiError DB :=
  if friend_id = me.id then
    .error (.badRequest "Cannot send friend request to yourself")
  else if (db.findUser friend_id).isNone then
    .error (.notFound "User not found")
  else
    match db.findFriendshipPair me.id friend_id with
    | some f =>
      if f.status = "pending" then
        .error (.badRequest "Friend request already sent or received")
      else if f.status = "accepted" then
        .error (.badRequest "Already friends with this user")
      else if f.status = "blocked" then
        .error (.forbidden "Cannot send friend request to this user")
      else
        .ok { db with friendships :=
                db.friendships.map (fun g =>
                  if g.id = f.id then
                    { g with status := "pending", user_id := me.id, friend_id := friend_id }
                  else g) }
    | none =>
      .ok { db with
        friendships := db.friendships ++
          [{ id := db.next_id, user_id := me.id, friend_id := friend_id, status := "pending" }],
        next_id := db.next_id + 1 }

/-- `POST /conversations/` (`create_conversation`). -/
def create_conversation (db : DB) (mgr : Manager) (me : User) (ctype : ConversationType)
    (title : Option String) (participant_ids : List Nat) (now : Nat) :
    Except ApiError HandlerResult :=
  let validated : Except ApiError Unit :=
    match ctype with
    | .direct =>
      match participant_ids with
      | [other] =>
        if db.conversations.any (fun c =>
            (c.type = ConversationType.direct ∧
              ((db.participantsOf c.id).filter
                (fun p => p.user_id = me.id ∨ p.user_id = other)).length = 2 : Prop)) then
          .error (.badRequest "Direct conversation already exists with this user")
        else .ok ()
      | _ => .error (.badRequest "Direct conversation must have exactly 1 other participant")
    | .group =>
      if title = none ∨ title = some "" then
        .error (.badRequest "Group conversation must have a title")
      else .ok ()
  match validated with
  | .error e => .error e
  | .ok _ =>
    if (db.users.filter (fun u => u.id ∈ participant_ids)).length ≠ participant_ids.length then
      .error (.notFound "One or more participants not found")
    else
      let cid := db.next_id
      let conv : Conversation :=
        { id := cid, type := ctype, title := title, created_by := me.id,
          created_at := now, updated_at := now }
      let rows : List Participant :=
        ⟨cid, me.id, none⟩ :: participant_ids.map (fun uid => ⟨cid, uid, none⟩)
      let db1 := { db with conversations := db.conversations ++ [conv],
                           participants := db.participants ++ rows,
                           next_id := db.next_id + 1 }
      let mgr1 := rows.foldl (fun m p => m.add_user_to_conversation p.user_id cid) mgr
      let evs := rows.flatMap
        (fun p => mgr1.send_personal_message (WSEvent.newConversation cid) p.user_id)
      .ok ⟨db1, mgr1, evs⟩

/-- `GET /conversations/{conversation_id}` (`get_conversation`): found only
when the conversation exists and the caller is a participant. -/
def get_conversation (db : DB) (me : User) (conversation_id : Nat) :
    Except ApiError Conversation :=
  match db.findConversation conversation_id with
  | some c =>
    if db.isParticipant conversation_id me.id then .ok c
    else .error (.notFound "Conversation not found or you are not a participant")
  | none => .error (.notFound "Conversation not found or you are not a participant")

/-- `POST /conversations/{conversation_id}/participants/{user_id}`
(`add_participant`). -/
def add_participant (db : DB) (mgr : Manager) (me : User) (conversation_id user_id : Nat)
    (now : Nat) : Except ApiError HandlerResult :=
  match db.findConversation conversation_id with
  | none => .error (.notFound "Conversation not found")
  | some conv =>
    if conv.type ≠ ConversationType.group then
      .error (.badRequest "Can only add participants to group conversations")
    else if conv.created_by ≠ me.id then
      .error (.forbidden "Only conversation creator can add participants")
    else if (db.participantsOf conversation_id).length ≥ 100 then
      .error (.badRequest "Group has reached maximum 100 members")
    else
      match db.findUser user_id with
      | none => .error (.notFound "User not found")
      | some added_user =>
        if ¬ db.hasAcceptedFriendship me.id user_id then
          .error (.badRequest "You can only add friends to the group")
        else if db.isParticipant conversation_id user_id then
          .error (.badRequest "User is already a participant")
        else
          let row : Participant := ⟨conversation_id, user_id, none⟩
          let content := me.display_name ++ " đã thêm " ++ added_user.display_name ++ " vào nhóm"
          let mid := db.next_id
          let sys_msg : Message :=
            { id := mid, conversation_id := conversation_id, sender_id := none,
              content := content, file_url := none, file_type := some "system",
              file_name := none, created_at := now, edited_at := none,
              is_deleted := "false", delivered_at := none, read_at := none,
              read_by_user_id := none }
          let db1 := { db with participants := db.participants ++ [row],
                               messages := db.messages ++ [sys_msg],
                               next_id := db.next_id + 1 }
          let db2 := db1.updateConversation conversation_id
            (fun c => { c with updated_at := sys_msg.created_at })
          let evs :=
            mgr.broadcast_to_conversation
              (WSEvent.newMessage conversation_id mid none content) conversation_id none ++
            mgr.send_personal_message (WSEvent.newConversation conversation_id) user_id
          let mgr1 := mgr.add_user_to_conversation user_id conversation_id
          .ok ⟨db2, mgr1, evs⟩

/-- The per-user loop body of `add_participants_batch`: verify existence and
accepted friendship, skip users already in the conversation, insert the
rest. -/
def batch_add_loop (me : User) (conversation_id : Nat) :
    List Nat → DB → List User → Except ApiError (DB × List User)
  | [], db, added => .ok (db, added)
  | uid :: rest, db, added =>
    match db.findUser uid with
    | none => .error (.notFound "User not found")
    | some u =>
      if ¬ db.hasAcceptedFriendship me.id uid then
        .error (.badRequest "You can only add friends")
      else if db.isParticipant conversation_id uid then
        batch_add_loop me conversation_id rest db added
      else
        batch_add_loop me conversation_id rest
          { db with participants := db.participants ++ [⟨conversation_id, uid, none⟩] }
          (added ++ [u])

/-- `POST /conversations/{conversation_id}/participants/batch`
(`add_participants_batch`). -/
def add_participants_batch (db : DB) (mgr : Manager) (me : User)
    (conversation_id : Nat) (user_ids : List Nat) (now : Nat) :
    Except ApiError HandlerResult :=
  match db.findConversation conversation_id with
  | none => .error (.notFound "Conversation not found")
  | some conv =>
    if conv.type ≠ ConversationType.group then
      .error (.badRequest "Can only add participants to group conversations")
    else if conv.created_by ≠ me.id then
      .error (.forbidden "Only conversation creator can add participants")
    else if (db.participantsOf conversation_id).length + user_ids.length > 100 then
      .error (.badRequest "Group can have maximum 100 members")
    else
      match batch_add_loop me conversation_id user_ids db [] with
      | .error e => .error e
      | .ok (db1, added) =>
        match added with
        | [] => .ok ⟨db1, mgr, []⟩
        | _ =>
          let names := added.map (·.display_name)
          let content :=
            match names with
            | [n] => me.display_name ++ " đã thêm " ++ n ++ " vào nhóm"
            | _ => me.display_name ++ " đã thêm " ++
                String.intercalate ", " names.dropLast ++ " và " ++
                names.getLast?.getD "" ++ " vào nhóm"
          let mid := db1.next_id
          let sys_msg : Message :=
            { id := mid, conversation_id := conversation_id, sender_id := none,
              content := content, file_url := none, file_type := some "system",
              file_name := none, created_at := now, edited_at := none,
              is_deleted := "false", delivered_at := none, read_at := none,
              read_by_user_id := none }
          let db2 := { db1 with messages := db1.messages ++ [sys_msg],
                                next_id := db1.next_id + 1 }
          let db3 := db2.updateConversation conversation_id
            (fun c => { c with updated_at := sys_msg.created_at })
          let evs :=
            mgr.broadcast_to_conversation
              (WSEvent.newMessage conversation_id mid none content) conversation_id none ++
            added.flatMap
              (fun u => mgr.send_personal_message (WSEvent.newConversation conversation_id) u.id)
          let mgr1 := added.foldl
            (fun m u => m.add_user_to_conversation u.id conversation_id) mgr
          .ok ⟨db3, mgr1, evs⟩

/-- `DELETE /conversations/{conversation_id}/participants/{user_id}`
(`remove_participant`). -/
def remove_participant (db : DB) (mgr : Manager) (me : User)
    (conversation_id user_id : Nat) : Except ApiError HandlerResult :=
  match db.findConversation conversation_id with
  | none => .error (.notFound "Conversation not found")
  | some conv =>
    if conv.type ≠ ConversationType.group then
      .error (.badRequest "Cannot remove participants from direct conversations")
    else if user_id ≠ me.id ∧ conv.created_by ≠ me.id then
      .error (.forbidden "You can only remove yourself or be the creator to remove others")
    else if ¬ db.isParticipant conversation_id user_id then
      .error (.notFound "Participant not found in conversation")
    else
      let db1 := { db with participants :=
        db.participants.filter (fun p =>
          ¬ (p.conversation_id = conversation_id ∧ p.user_id = user_id)) }
      .ok ⟨db1, mgr, []⟩

/-- Cascade of `db.delete(conversation)`: the conversation, its participant
rows, its messages, and the reactions of those messages are removed. -/
def DB.deleteConversationCascade (db : DB) (cid : Nat) : DB :=
  { db with
    conversations := db.conversations.filter (fun c => c.id ≠ cid),
    participants := db.participants.filter (fun p => p.conversation_id ≠ cid),
    messages := db.messages.filter (fun m => m.conversation_id ≠ cid),
    reactions := db.reactions.filter (fun r =>
      ¬ db.messages.any (fun m => m.conversation_id = cid ∧ m.id = r.message_id)) }

/-- `DELETE /conversations/{conversation_id}/leave` (`leave_conversation`). -/
def leave_conversation (db : DB) (mgr : Manager) (me : User) (conversation_id : Nat)
    (now : Nat) : Except ApiError HandlerResult :=
  if ¬ db.isParticipant conversation_id me.id then
    .error (.notFound "You are not a participant in this conversation")
  else
    match db.findConversation conversation_id with
    | none => .error (.notFound "Conversation not found")
    | some conv =>
      let db1 := { db with participants :=
        db.participants.filter (fun p =>
          ¬ (p.conversation_id = conversation_id ∧ p.user_id = me.id)) }
      if conv.type = ConversationType.group then
        let content1 := me.display_name ++ " đã rời khỏi nhóm"
        let m1 : Message :=
          { id := db1.next_id, conversation_id := conversation_id, sender_id := none,
            content := content1, file_url := none, file_type := some "system",
            file_name := none, created_at := now, edited_at := none,
            is_deleted := "false", delivered_at := none, read_at := none,
            read_by_user_id := none }
        let db2 := { db1 with messages := db1.messages ++ [m1], next_id := db1.next_id + 1 }
        let db3 := db2.updateConversation conversation_id
          (fun c => { c with updated_at := m1.created_at })
        let remaining := (db3.participantsOf conversation_id).length
        if remaining = 1 then
          let last_user := ((db3.participantsOf conversation_id).map (·.user_id)).headD 0
          let content2 := "Nhóm đã tự động giải tán vì chỉ còn lại bạn"
          let m2 : Message :=
            { id := db3.next_id, conversation_id := conversation_id, sender_id := none,
              content := content2, file_url := none, file_type := some "system",
              file_name := none, created_at := now, edited_at := none,
              is_deleted := "false", delivered_at := none, read_at := none,
              read_by_user_id := none }
          let db4 := { db3 with messages := db3.messages ++ [m2], next_id := db3.next_id + 1 }
          let evs := mgr.send_personal_message
            (WSEvent.newMessage conversation_id m2.id none content2) last_user
          .ok ⟨db4.deleteConversationCascade conversation_id, mgr, evs⟩
        else
          let evs := mgr.broadcast_to_conversation
            (WSEvent.newMessage conversation_id m1.id none content1)
            conversation_id (some me.id)
          .ok ⟨db3, mgr, evs⟩
      else
        .ok ⟨db1, mgr, []⟩

/-- The WebSocket handshake path: `manager.connect` (returning the session
it closed, if any) followed by `load_user_conversations`, which registers
every conversation the user belongs to in storage. -/
def ws_connect (db : DB) (mgr : Manager) (user_id session : Nat) : Manager × Option Nat :=
  let (mgr1, closed) := mgr.connect user_id session
  let conv_ids := (db.participants.filter (fun p => p.user_id = user_id)).map (·.conversation_id)
  (conv_ids.foldl (fun m cid => m.add_user_to_conversation user_id cid) mgr1, closed)

/-- `ConnectionManager.is_user_online`. -/
def Manager.is_user_online (m : Manager) (user_id : Nat) : Bool :=
  (dictFind? user_id m.active_connections).isSome

/-- Whether the manager's directory lists `conversation_id` for `user_id`. -/
def Manager.tracks (m : Manager) (user_id conversation_id : Nat) : Bool :=
  match dictFind? user_id m.user_conversations with
  | some cs => conversation_id ∈ cs
  | none => false

def exceptOk : Except ApiError α → Bool
  | .ok _ => true
  | .error _ => false

def okDB (e : Except ApiError HandlerResult) (fallback : DB) : DB :=
  match e with
  | .ok r => r.db
  | .error _ => fallback

def okMgr (e : Except ApiError HandlerResult) (fallback : Manager) : Manager :=
  match e with
  | .ok r => r.mgr
  | .error _ => fallback

def okEvents (e : Except ApiError HandlerResult) : List Delivery :=
  match e with
  | .ok r => r.events
  | .error _ => []

/-! ### Concrete fixtures used by the claim witnesses and counterexamples -/

def aliceU : User := ⟨0, "alice", "Alice", true⟩
def bobU : User := ⟨1, "bob", "Bob", true⟩
def carolU : User := ⟨2, "carol", "Carol", true⟩

/-- Group conversation 10 created by Alice with members Alice, Bob, Carol. -/
def groupDB : DB :=
  { users := [aliceU, bobU, carolU],
    conversations := [⟨10, .group, some "G", 0, 0, 0⟩],
    participants := [⟨10, 0, none⟩, ⟨10, 1, none⟩, ⟨10, 2, none⟩],
    messages := [],
    friendships := [],
    reactions := [],
    next_id := 100 }

/-- All three members connected over WebSocket. -/
def groupMgr : Manager :=
  (ws_connect groupDB
    ((ws_connect groupDB ((ws_connect groupDB Manager.empty 0 1000).1) 1 1001).1)
    2 1002).1

def c1_after_leave : Except ApiError HandlerResult :=
  leave_conversation groupDB groupMgr aliceU 10 5

def c1_db1 : DB := okDB c1_after_leave groupDB
def c1_mgr1 : Manager := okMgr c1_after_leave groupMgr

def c1_send : Except ApiError HandlerResult :=
  send_message c1_db1 c1_mgr1 bobU 10 "hi" none none none 6

/-! ### Presence-registry invariant machinery (claim about `connect`) -/

/-- Number of registry entries held by one user. -/
def countEntries (u : Nat) (d : List (Nat × α)) : Nat :=
  (d.filter (fun p => p.1 = u)).length

/-- The manager operations reachable through the WebSocket endpoint and the
conversation endpoints. -/
inductive ManagerOp where
  | connect (user_id session : Nat)
  | disconnect (user_id : Nat)
  | track (user_id conversation_id : Nat)
  | untrack (user_id conversation_id : Nat)
  deriving Repr, DecidableEq

def applyOp (m : Manager) : ManagerOp → Manager
  | .connect u s => (m.connect u s).1
  | .disconnect u => m.disconnect u
  | .track u c => m.add_user_to_conversation u c
  | .untrack u c => m.remove_user_from_conversation u c

def applyOps (ops : List ManagerOp) (m : Manager) : Manager :=
  ops.foldl applyOp m

/-- Every user holds at most one live session entry. -/
def AtMostOneSession (m : Manager) : Prop :=
  ∀ u, countEntries u m.active_connections ≤ 1

theorem countEntries_cons (u : Nat) (p : Nat × α) (d : List (Nat × α)) :
    countEntries u (p :: d) = (if p.1 = u then 1 else 0) + countEntries u d := by
  by_cases h : p.1 = u <;> simp [countEntries, List.filter_cons, h] <;> omega

theorem countEntries_dictInsert_self (k : Nat) (v : α) (d : List (Nat × α)) :
    countEntries k (dictInsert k v d) = max 1 (countEntries k d) := by
  induction d with
  | nil => simp [dictInsert, countEntries]
  | cons p rest ih =>
    obtain ⟨k', v'⟩ := p
    by_cases h : k' = k
    · subst h
      simp [dictInsert, countEntries_cons]
    · simp [dictInsert, h, countEntries_cons, ih]

theorem countEntries_dictInsert_ne (k : Nat) (v : α) (d : List (Nat × α)) (u : Nat)
    (h : u ≠ k) : countEntries u (dictInsert k v d) = countEntries u d := by
  induction d with
  | nil => simp [dictInsert, countEntries, Ne.symm h]
  | cons p rest ih =>
    obtain ⟨k', v'⟩ := p
    by_cases hk : k' = k
    · subst hk
      simp [dictInsert, countEntries_cons, Ne.symm h]
    · simp [dictInsert, hk, countEntries_cons, ih]

theorem countEntries_dictErase_le (k : Nat) (d : List (Nat × α)) (u : Nat) :
    countEntries u (dictErase k d) ≤ countEntries u d := by
  have h1 : List.Sublist (dictErase k d) d := by
    simpa [dictErase] using List.filter_sublist d
  have h2 := h1.filter (fun p => decide (p.1 = u))
  simpa [countEntries] using h2.length_le

theorem dictFind?_dictInsert_self (k : Nat) (v : α) (d : List (Nat × α)) :
    dictFind? k (dictInsert k v d) = some v := by
  induction d with
  | nil => simp [dictInsert, dictFind?]
  | cons p rest ih =>
    obtain ⟨k', v'⟩ := p
    by_cases hk : k' = k
    · subst hk
      simp [dictInsert, dictFind?, List.find?]
    · simp only [dictInsert, if_neg hk]
      simpa [dictFind?, List.find?, hk] using ih

theorem applyOp_preserves (m : Manager) (op : ManagerOp) (h : AtMostOneSession m) :
    AtMostOneSession (applyOp m op) := by
  cases op with
  | connect u s =>
    intro v
    by_cases hv : v = u
    · subst hv
      simp only [applyOp, Manager.connect, countEntries_dictInsert_self]
      have := h v
      omega
    · simpa only [applyOp, Manager.connect, countEntries_dictInsert_ne u s _ v hv] using h v
  | disconnect u =>
    intro v
    exact le_trans (countEntries_dictErase_le u _ v) (h v)
  | track u c =>
    intro v
    simpa [applyOp, Manager.add_user_to_conversation] using h v
  | untrack u c =>
    intro v
    simp only [applyOp, Manager.remove_user_from_conversation]
    cases dictFind? u m.user_conversations with
    | none => exact h v
    | some cs => exact h v

theorem applyOps_preserves (ops : List ManagerOp) (m : Manager) (h : AtMostOneSession m) :
    AtMostOneSession (applyOps ops m) := by
  induction ops generalizing m with
  | nil => exact h
  | cons op rest ih => exact ih (applyOp m op) (applyOp_preserves m op h)

theorem empty_atMostOneSession : AtMostOneSession Manager.empty := by
  intro u
  simp [Manager.empty, countEntries]

/-! ### Broadcast resolution lemmas -/

theorem tracks_mem_broadcast_targets (m : Manager) (cid : Nat) (exclude : Option Nat)
    (u : Nat) (h : m.tracks u cid = true) (hex : some u ≠ exclude) :
    u ∈ m.broadcast_targets cid exclude := by
  unfold Manager.tracks at h
  cases hfind : dictFind? u m.user_conversations with
  | none => rw [hfind] at h; simp at h
  | some cs =>
    rw [hfind] at h
    simp only [decide_eq_true_eq] at h
    unfold dictFind? at hfind
    cases hf : m.user_conversations.find? (fun p => p.1 = u) with
    | none => rw [hf] at hfind; simp at hfind
    | some p0 =>
      rw [hf] at hfind
      simp only [Option.map_some'] at hfind
      have hp0mem : p0 ∈ m.user_conversations := List.mem_of_find?_eq_some hf
      have hp0fst : p0.1 = u := by
        have := List.find?_some hf
        simpa using this
      rw [Manager.broadcast_targets, List.mem_filterMap]
      refine ⟨p0, hp0mem, ?_⟩
      have hcs : p0.2 = cs := Option.some.inj hfind
      rw [hp0fst, hcs]
      simp [h, hex]

theorem mem_broadcast_targets_props (m : Manager) (cid : Nat) (exclude : Option Nat)
    (u : Nat) (h : u ∈ m.broadcast_targets cid exclude) :
    some u ≠ exclude ∧ u ∈ m.user_conversations.map Prod.fst := by
  rw [Manager.broadcast_targets, List.mem_filterMap] at h
  obtain ⟨p, hp, hpu⟩ := h
  by_cases hc : cid ∈ p.2 ∧ some p.1 ≠ exclude
  · rw [if_pos hc] at hpu
    cases hpu
    exact ⟨hc.2, List.mem_map.mpr ⟨p, hp, rfl⟩⟩
  · rw [if_neg hc] at hpu
    cases hpu

theorem filterMap_targets_nodup (cid : Nat) (exclude : Option Nat) :
    ∀ l : List (Nat × List Nat), (l.map Prod.fst).Nodup →
      (l.filterMap
        (fun p => if cid ∈ p.2 ∧ some p.1 ≠ exclude then some p.1 else none)).Nodup := by
  intro l
  induction l with
  | nil => intro _; simp
  | cons p rest ih =>
    intro hnd
    simp only [List.map_cons, List.nodup_cons] at hnd
    rw [List.filterMap_cons]
    by_cases hc : cid ∈ p.2 ∧ some p.1 ≠ exclude
    · rw [if_pos hc]
      refine List.nodup_cons.mpr ⟨?_, ih hnd.2⟩
      intro hmem
      rw [List.mem_filterMap] at hmem
      obtain ⟨q, hq, hqe⟩ := hmem
      by_cases hcq : cid ∈ q.2 ∧ some q.1 ≠ exclude
      · rw [if_pos hcq] at hqe
        have hq1 : q.1 = p.1 := Option.some.inj hqe
        exact hnd.1 (List.mem_map.mpr ⟨q, hq, hq1⟩)
      · rw [if_neg hcq] at hqe
        cases hqe
    · rw [if_neg hc]
      exact ih hnd.2

theorem broadcast_targets_nodup (m : Manager) (cid : Nat) (exclude : Option Nat)
    (hnd : (m.user_conversations.map Prod.fst).Nodup) :
    (m.broadcast_targets cid exclude).Nodup := by
  rw [Manager.broadcast_targets]
  exact filterMap_targets_nodup cid exclude m.user_conversations hnd

theorem send_personal_message_online (m : Manager) (ev : WSEvent) (u : Nat)
    (h : m.is_user_online u = true) :
    m.send_personal_message ev u = [⟨u, ev⟩] := by
  unfold Manager.is_user_online at h
  simp [Manager.send_personal_message, h]

theorem send_personal_message_target (m : Manager) (ev : WSEvent) (u : Nat) :
    ∀ d ∈ m.send_personal_message ev u, d = ⟨u, ev⟩ := by
  intro d hd
  unfold Manager.send_personal_message at hd
  by_cases h : (dictFind? u m.active_connections).isSome
  · rw [if_pos h] at hd
    simpa using hd
  · rw [if_neg h] at hd
    cases hd

theorem broadcast_event_shape (m : Manager) (ev : WSEvent) (cid : Nat)
    (exclude : Option Nat) :
    ∀ d ∈ m.broadcast_to_conversation ev cid exclude,
      d.event = ev ∧ some d.target ≠ exclude := by
  intro d hd
  rw [Manager.broadcast_to_conversation, List.mem_flatMap] at hd
  obtain ⟨u, hu, hdu⟩ := hd
  have hshape := send_personal_message_target m ev u d hdu
  subst hshape
  exact ⟨rfl, (mem_broadcast_targets_props m cid exclude u hu).1⟩

theorem mem_broadcast_to_conversation (m : Manager) (ev : WSEvent) (cid : Nat)
    (exclude : Option Nat) (u : Nat) (htr : m.tracks u cid = true)
    (hex : some u ≠ exclude) (hon : m.is_user_online u = true) :
    (⟨u, ev⟩ : Delivery) ∈ m.broadcast_to_conversation ev cid exclude := by
  rw [Manager.broadcast_to_conversation, List.mem_flatMap]
  exact ⟨u, tracks_mem_broadcast_targets m cid exclude u htr hex,
    by rw [send_personal_message_online m ev u hon]; simp⟩

theorem filter_flatMap_single (m : Manager) (ev : WSEvent) (ts : List Nat)
    (hnd : ts.Nodup) (u : Nat) (hon : m.is_user_online u = true) (hu : u ∈ ts) :
    (ts.flatMap (m.send_personal_message ev)).filter (fun d => d.target = u) =
      [⟨u, ev⟩] := by
  induction ts with
  | nil => cases hu
  | cons t rest ih =>
    have hnone : ∀ (v : Nat), v ≠ u →
        (m.send_personal_message ev v).filter (fun d => d.target = u) = [] := by
      intro v hv
      rw [List.filter_eq_nil]
      intro d hd
      have := send_personal_message_target m ev v d hd
      subst this
      simp [hv]
    have hrest_not : u ∉ rest → (rest.flatMap (m.send_personal_message ev)).filter
        (fun d => d.target = u) = [] := by
      intro hnomem
      rw [List.filter_eq_nil]
      intro d hd
      rw [List.mem_flatMap] at hd
      obtain ⟨v, hv, hdv⟩ := hd
      have := send_personal_message_target m ev v d hdv
      subst this
      simp only [decide_eq_true_eq]
      intro hvu
      exact hnomem (hvu ▸ hv)
    rw [List.flatMap_cons, List.filter_append]
    rcases List.mem_cons.mp hu with hcase | hcase
    · subst hcase
      rw [send_personal_message_online m ev u hon]
      have hnomem : u ∉ rest := (List.nodup_cons.mp hnd).1
      rw [hrest_not hnomem]
      simp
    · have htne : t ≠ u := by
        intro hteq
        exact (List.nodup_cons.mp hnd).1 (hteq ▸ hcase)
      rw [hnone t htne, ih (List.nodup_cons.mp hnd).2 hcase]
      simp

theorem broadcast_exactly_once (m : Manager) (ev : WSEvent) (cid : Nat)
    (exclude : Option Nat) (u : Nat)
    (hnd : (m.user_conversations.map Prod.fst).Nodup)
    (htr : m.tracks u cid = true) (hex : some u ≠ exclude)
    (hon : m.is_user_online u = true) :
    (m.broadcast_to_conversation ev cid exclude).filter (fun d => d.target = u) =
      [⟨u, ev⟩] := by
  rw [Manager.broadcast_to_conversation]
  exact filter_flatMap_single m ev _ (broadcast_targets_nodup m cid exclude hnd) u hon
    (tracks_mem_broadcast_targets m cid exclude u htr hex)

/-! ### Claim theorems -/

/-- C1: the claim says `broadcast_to_conversation` never delivers to a user
who is no longer a member of the conversation.  The code violates it: the
directory entry is never pruned on leave (`remove_user_from_conversation`
is never called), so after Alice leaves group 10, Bob's next message is
still delivered to Alice even though she is not a participant. -/
theorem broadcast_reaches_departed_member :
    exceptOk c1_after_leave = true ∧
    c1_db1.isParticipant 10 0 = false ∧
    exceptOk c1_send = true ∧
    (⟨0, WSEvent.newMessage 10 101 (some 1) "hi"⟩ : Delivery) ∈ okEvents c1_send := by
  decide

/-- C3: after any sequence of manager operations from the empty registry,
every user holds at most one session entry, and connecting a user who
already has a session returns that prior session for closing and leaves the
new session as the sole active one. -/
theorem connect_single_session (ops : List ManagerOp) (u s session : Nat)
    (h : dictFind? u (applyOps ops Manager.empty).active_connections = some s) :
    (∀ v, countEntries v (applyOps ops Manager.empty).active_connections ≤ 1) ∧
    ((applyOps ops Manager.empty).connect u session).2 = some s ∧
    dictFind? u ((applyOps ops Manager.empty).connect u session).1.active_connections =
      some session := by
  refine ⟨applyOps_preserves ops Manager.empty empty_atMostOneSession, ?_, ?_⟩
  · simp [Manager.connect, h]
  · simp [Manager.connect, dictFind?_dictInsert_self]

/-- Witness for C3 at a concrete reconnect: user 5 connects with session 9,
then reconnects with session 7; the old session 9 is the one closed. -/
theorem connect_single_session_witness :
    countEntries 5 (applyOps [ManagerOp.connect 5 9] Manager.empty).active_connections ≤ 1 ∧
    ((applyOps [ManagerOp.connect 5 9] Manager.empty).connect 5 7).2 = some 9 :=
  ⟨(connect_single_session [ManagerOp.connect 5 9] 5 9 7 (by decide)).1 5,
   (connect_single_session [ManagerOp.connect 5 9] 5 9 7 (by decide)).2.1⟩

/-- C10: a message whose sender is `none` (a system message) fails the
sender-ownership check of both the edit and the delete endpoint for every
caller, so it is rejected with the authorization error and left unchanged
(errors carry no state change in this embedding). -/
theorem system_message_edit_delete_rejected (db : DB) (mgr : Manager) (me : User)
    (mid : Nat) (new_content : String) (now : Nat) (msg : Message)
    (hfind : db.findMessage mid = some msg) (hsys : msg.sender_id = none) :
    edit_message db mgr me mid new_content now =
      .error (.forbidden "You can only edit your own messages") ∧
    delete_message db mgr me mid =
      .error (.forbidden "You can only delete your own messages") := by
  have hne : msg.sender_id ≠ some me.id := by simp [hsys]
  constructor
  · simp [edit_message, hfind, hne]
  · simp [delete_message, hfind, hne]

/-- System message fixture: message 50 in group 10 with `sender_id = none`. -/
def sysMsgDB : DB :=
  { groupDB with messages :=
      [⟨50, 10, none, "Alice đã rời khỏi nhóm", none, some "system", none, 0, none,
        "false", none, none, none⟩] }

/-- Witness for C10: Alice cannot edit or delete system message 50. -/
theorem system_message_edit_delete_rejected_witness :
    edit_message sysMsgDB Manager.empty aliceU 50 "x" 1 =
      .error (.forbidden "You can only edit your own messages") ∧
    delete_message sysMsgDB Manager.empty aliceU 50 =
      .error (.forbidden "You can only delete your own messages") :=
  system_message_edit_delete_rejected sysMsgDB Manager.empty aliceU 50 "x" 1
    ⟨50, 10, none, "Alice đã rời khỏi nhóm", none, some "system", none, 0, none,
      "false", none, none, none⟩ (by decide) (by decide)

/-- C7: reaction add is idempotent and reaction remove is total-or-NotFound.
When the (message, user, emoji) triple exists, `add_reaction` returns with
the store and manager untouched and emits nothing, while `remove_reaction`
deletes the row and emits `REACTION_REMOVED`; when the triple is absent,
`add_reaction` appends exactly one row and emits `REACTION_ADDED`, while
`remove_reaction` fails with NotFound. -/
theorem reaction_add_idempotent_remove_total (db : DB) (mgr : Manager) (me : User)
    (mid : Nat) (emoji : String) (now : Nat) (msg : Message)
    (hmsg : db.findMessage mid = some msg)
    (hpart : db.isParticipant msg.conversation_id me.id = true) :
    (∀ r0, db.reactions.find?
        (fun r => r.message_id = mid ∧ r.user_id = me.id ∧ r.emoji = emoji) = some r0 →
      add_reaction db mgr me mid emoji now = .ok ⟨db, mgr, []⟩ ∧
      remove_reaction db mgr me mid emoji =
        .ok ⟨{ db with reactions := db.reactions.filter (fun r' => r'.id ≠ r0.id) }, mgr,
          mgr.broadcast_to_conversation
            (WSEvent.reactionRemoved msg.conversation_id mid me.id emoji)
            msg.conversation_id none⟩) ∧
    (db.reactions.find?
        (fun r => r.message_id = mid ∧ r.user_id = me.id ∧ r.emoji = emoji) = none →
      add_reaction db mgr me mid emoji now =
        .ok ⟨{ db with reactions := db.reactions ++ [⟨db.next_id, mid, me.id, emoji, now⟩], next_id := db.next_id + 1 }, mgr,
          mgr.broadcast_to_conversation
            (WSEvent.reactionAdded msg.conversation_id mid me.id emoji)
            msg.conversation_id none⟩ ∧
      remove_reaction db mgr me mid emoji = .error (.notFound "Reaction not found")) := by
  constructor
  · intro r0 hr0
    simp only [Bool.decide_and] at hr0
    constructor
    · simp [add_reaction, hmsg, hpart, hr0]
    · simp [remove_reaction, hmsg, hr0]
  · intro hnone
    simp only [Bool.decide_and] at hnone
    constructor
    · simp [add_reaction, hmsg, hpart, hnone]
    · simp [remove_reaction, hmsg, hnone]

/-- Message 20 sent by Alice in group 10, with a file attachment. -/
def m20 : Message :=
  ⟨20, 10, some 0, "hello", some "u1", some "image", some "f", 1, none, "false",
    none, none, none⟩

def msgDB : DB := { groupDB with messages := [m20] }

/-- Reaction fixture: Bob already reacted 👍 on message 20. -/
def c7_db : DB := { msgDB with reactions := [⟨30, 20, 1, "👍", 2⟩] }

/-- Witness for C7: re-adding Bob's existing 👍 is a no-op success, and
removing an absent ❤ fails with NotFound. -/
theorem reaction_add_idempotent_remove_total_witness :
    add_reaction c7_db groupMgr bobU 20 "👍" 9 = .ok ⟨c7_db, groupMgr, []⟩ ∧
    remove_reaction c7_db groupMgr bobU 20 "❤" = .error (.notFound "Reaction not found") :=
  ⟨((reaction_add_idempotent_remove_total c7_db groupMgr bobU 20 "👍" 9 m20
      (by decide) (by decide)).1 ⟨30, 20, 1, "👍", 2⟩ (by decide)).1,
   ((reaction_add_idempotent_remove_total c7_db groupMgr bobU 20 "❤" 9 m20
      (by decide) (by decide)).2 (by decide)).2⟩

/-- C8: a friend request against an existing row is rejected while the row
is pending, accepted or blocked; when the row is in any other state (i.e.
rejected), the same row is overwritten in place with the new direction and
a pending status, and no duplicate row is inserted. -/
theorem friend_request_transitions (db : DB) (me : User) (fid : Nat) (f : Friendship)
    (hself : fid ≠ me.id) (huser : (db.findUser fid).isSome = true)
    (hpair : db.findFriendshipPair me.id fid = some f) :
    (f.status = "pending" →
      send_friend_request db me fid = .error (.badRequest "Friend request already sent or received")) ∧
    (f.status = "accepted" →
      send_friend_request db me fid = .error (.badRequest "Already friends with this user")) ∧
    (f.status = "blocked" →
      send_friend_request db me fid = .error (.forbidden "Cannot send friend request to this user")) ∧
    (f.status ≠ "pending" → f.status ≠ "accepted" → f.status ≠ "blocked" →
      send_friend_request db me fid = .ok { db with friendships := db.friendships.map (fun g =>
          if g.id = f.id then
            { g with status := "pending", user_id := me.id, friend_id := fid }
          else g) } ∧
      ∀ db', send_friend_request db me fid = .ok db' →
        db'.friendships.length = db.friendships.length ∧
        ∀ g ∈ db'.friendships, g.id = f.id →
          g.status = "pending" ∧ g.user_id = me.id ∧ g.friend_id = fid) := by
  cases hu : db.findUser fid with
  | none => rw [hu] at huser; simp at huser
  | some target =>
    have hnone : (db.findUser fid).isNone = false := by simp [hu]
    refine ⟨?_, ?_, ?_, ?_⟩
    · intro hs; simp [send_friend_request, hself, hnone, hpair, hs]
    · intro hs; simp [send_friend_request, hself, hnone, hpair, hs]
    · intro hs; simp [send_friend_request, hself, hnone, hpair, hs]
    · intro h1 h2 h3
      have hmain : send_friend_request db me fid = .ok { db with friendships := db.friendships.map (fun g =>
            if g.id = f.id then
              { g with status := "pending", user_id := me.id, friend_id := fid }
            else g) } := by
        simp [send_friend_request, hself, hnone, hpair, h1, h2, h3]
      refine ⟨hmain, ?_⟩
      intro db' hdb'
      rw [hmain] at hdb'
      have hdb'eq := (Except.ok.inj hdb').symm
      subst hdb'eq
      refine ⟨by simp, ?_⟩
      intro g hg hgid
      simp only [List.mem_map] at hg
      obtain ⟨g0, hg0, hge⟩ := hg
      by_cases hc : g0.id = f.id
      · rw [if_pos hc] at hge
        subst hge
        exact ⟨rfl, rfl, rfl⟩
      · rw [if_neg hc] at hge
        subst hge
        exact absurd hgid hc

/-- Friendship fixture: Bob's earlier request to Alice was rejected. -/
def c8_db : DB := { groupDB with friendships := [⟨7, 1, 0, "rejected"⟩] }

/-- Witness for C8: Alice re-requests the rejected friendship; the single
row flips direction and resets to pending. -/
theorem friend_request_transitions_witness :
    send_friend_request c8_db aliceU 1 = .ok { c8_db with friendships := c8_db.friendships.map (fun g =>
        if g.id = 7 then { g with status := "pending", user_id := 0, friend_id := 1 }
        else g) } :=
  ((friend_request_transitions c8_db aliceU 1 ⟨7, 1, 0, "rejected"⟩
    (by decide) (by decide) (by decide)).2.2.2
    (by decide) (by decide) (by decide)).1

def c5_del : Except ApiError HandlerResult := delete_message msgDB groupMgr aliceU 20

/-- C5 counterexample: after Alice soft-deletes message 20, the content
field reads back the fixed marker "This message was deleted", not empty;
the claim's "content ... read back empty" is false on the code. -/
theorem deleted_message_content_not_empty :
    exceptOk c5_del = true ∧
    ((okDB c5_del msgDB).findMessage 20).map Message.content =
      some "This message was deleted" ∧
    ¬ ((okDB c5_del msgDB).findMessage 20).map Message.content = some "" := by
  decide

/-- C5 amended: a soft-deleted message rejects any further edit and any
further delete (no state change), and a successful delete clears the three
file fields to `none` while replacing the content with the fixed deletion
marker (rather than the empty string). -/
theorem soft_deleted_message_locked (db : DB) (mgr : Manager) (me : User)
    (mid : Nat) (new_content : String) (now : Nat) (msg : Message)
    (hmsg : db.findMessage mid = some msg) :
    (msg.is_deleted = "true" →
      exceptOk (edit_message db mgr me mid new_content now) = false ∧
      exceptOk (delete_message db mgr me mid) = false) ∧
    (msg.sender_id = some me.id → ¬ msg.is_deleted = "true" →
      ∃ res, delete_message db mgr me mid = .ok res ∧
        ∀ m ∈ res.db.messages, m.id = mid →
          m.is_deleted = "true" ∧ m.content = "This message was deleted" ∧
          m.file_url = none ∧ m.file_type = none ∧ m.file_name = none) := by
  constructor
  · intro hdel
    constructor
    · by_cases hs : msg.sender_id = some me.id
      · simp [edit_message, hmsg, hs, hdel, exceptOk]
      · simp [edit_message, hmsg, hs, exceptOk]
    · by_cases hs : msg.sender_id = some me.id
      · simp [delete_message, hmsg, hs, hdel, exceptOk]
      · simp [delete_message, hmsg, hs, exceptOk]
  · intro hs hdel
    have hmain : delete_message db mgr me mid = .ok
        ⟨db.updateMessage mid (fun m =>
          { m with is_deleted := "true", content := "This message was deleted",
                   file_url := none, file_type := none, file_name := none }), mgr,
         mgr.broadcast_to_conversation (WSEvent.messageDeleted msg.conversation_id mid)
           msg.conversation_id none⟩ := by
      simp [delete_message, hmsg, hs, hdel]
    refine ⟨_, hmain, ?_⟩
    intro m hm hmid
    simp only [DB.updateMessage, List.mem_map] at hm
    obtain ⟨m0, hm0, hme⟩ := hm
    by_cases hc : m0.id = mid
    · rw [if_pos hc] at hme
      subst hme
      exact ⟨rfl, rfl, rfl, rfl, rfl⟩
    · rw [if_neg hc] at hme
      subst hme
      exact absurd hmid hc

/-- State of the store after Alice soft-deleted message 20. -/
def c5_deletedDB : DB := okDB c5_del msgDB

/-- Witness for C5 (amended): on the already-deleted message 20, both a
further edit and a further delete are rejected. -/
theorem soft_deleted_message_locked_witness :
    exceptOk (edit_message c5_deletedDB groupMgr aliceU 20 "y" 7) = false ∧
    exceptOk (delete_message c5_deletedDB groupMgr aliceU 20) = false :=
  (soft_deleted_message_locked c5_deletedDB groupMgr aliceU 20 "y" 7
    ⟨20, 10, some 0, "This message was deleted", none, none, none, 1, none, "true",
      none, none, none⟩ (by decide)).1 (by decide)

def c4_first : Except ApiError HandlerResult := mark_message_as_read msgDB groupMgr bobU 20 5

def c4_second : Except ApiError HandlerResult :=
  mark_message_as_read (okDB c4_first msgDB) groupMgr bobU 20 6

/-- C4 counterexample: Bob (a non-sender member) marks message 20 read and
then marks it read again; both calls succeed and the second overwrites the
read timestamp, so "succeeds exactly once" is false on the code, which has
no already-read guard. -/
theorem mark_read_repeat_succeeds :
    exceptOk c4_first = true ∧
    exceptOk c4_second = true ∧
    ((okDB c4_second msgDB).findMessage 20).map Message.read_at = some (some 6) := by
  decide

/-- C4 amended: a sender marking its own message read is rejected with no
state change; a non-sender member's mark succeeds on every attempt (the
code has no once-only guard), setting the read timestamp and reader
identity, advancing that member's last-read pointer, and emitting
`MESSAGE_READ` to the tracked online members except the reader. -/
theorem mark_read_amended (db : DB) (mgr : Manager) (me : User) (mid : Nat)
    (now : Nat) (msg : Message)
    (hmsg : db.findMessage mid = some msg)
    (hpart : (db.findParticipant msg.conversation_id me.id).isSome = true) :
    (msg.sender_id = some me.id →
      mark_message_as_read db mgr me mid now =
        .error (.badRequest "Cannot mark your own message as read")) ∧
    (¬ msg.sender_id = some me.id →
      ∃ res, mark_message_as_read db mgr me mid now = .ok res ∧
        (∀ m ∈ res.db.messages, m.id = mid →
          m.read_at = some now ∧ m.read_by_user_id = some me.id) ∧
        (∀ p ∈ res.db.participants,
          p.conversation_id = msg.conversation_id → p.user_id = me.id →
          p.last_read_message_id = some mid) ∧
        (∀ d ∈ res.events, ¬ d.target = me.id ∧
          d.event = WSEvent.messageRead msg.conversation_id mid me.id) ∧
        (∀ u, mgr.tracks u msg.conversation_id = true → ¬ u = me.id →
          mgr.is_user_online u = true →
          (⟨u, WSEvent.messageRead msg.conversation_id mid me.id⟩ : Delivery) ∈
            res.events)) := by
  cases hp : db.findParticipant msg.conversation_id me.id with
  | none => rw [hp] at hpart; simp at hpart
  | some p0 =>
    constructor
    · intro hs
      simp [mark_message_as_read, hmsg, hp, hs]
    · intro hs
      have hmain : mark_message_as_read db mgr me mid now = .ok
          ⟨(db.updateMessage mid (fun m =>
              { m with read_at := some now, read_by_user_id := some me.id })).updateParticipant
            msg.conversation_id me.id (fun p => { p with last_read_message_id := some mid }),
           mgr,
           mgr.broadcast_to_conversation (WSEvent.messageRead msg.conversation_id mid me.id)
             msg.conversation_id (some me.id)⟩ := by
        simp [mark_message_as_read, hmsg, hp, hs]
      refine ⟨_, hmain, ?_, ?_, ?_, ?_⟩
      · intro m hm hmid
        simp only [DB.updateParticipant, DB.updateMessage, List.mem_map] at hm
        obtain ⟨m0, hm0, hme⟩ := hm
        by_cases hc : m0.id = mid
        · rw [if_pos hc] at hme
          subst hme
          exact ⟨rfl, rfl⟩
        · rw [if_neg hc] at hme
          subst hme
          exact absurd hmid hc
      · intro p hpmem hpc hpu
        simp only [DB.updateParticipant, DB.updateMessage, List.mem_map] at hpmem
        obtain ⟨q0, hq0, hqe⟩ := hpmem
        by_cases hc : q0.conversation_id = msg.conversation_id ∧ q0.user_id = me.id
        · rw [if_pos hc] at hqe
          subst hqe
          exact rfl
        · rw [if_neg hc] at hqe
          subst hqe
          exact absurd ⟨hpc, hpu⟩ hc
      · intro d hd
        have hshape := broadcast_event_shape mgr
          (WSEvent.messageRead msg.conversation_id mid me.id) msg.conversation_id
          (some me.id) d hd
        refine ⟨?_, hshape.1⟩
        intro heq
        exact hshape.2 (by rw [heq])
      · intro u htr hne hon
        exact mem_broadcast_to_conversation mgr
          (WSEvent.messageRead msg.conversation_id mid me.id) msg.conversation_id
          (some me.id) u htr (by simp [hne]) hon

/-- Witness for C4 (amended): Alice cannot mark her own message 20 read,
while Bob's mark pushes `MESSAGE_READ` to Carol (online, tracked, not the
reader). -/
theorem mark_read_amended_witness :
    mark_message_as_read msgDB groupMgr aliceU 20 5 =
      .error (.badRequest "Cannot mark your own message as read") ∧
    (⟨2, WSEvent.messageRead 10 20 1⟩ : Delivery) ∈ okEvents c4_first := by
  constructor
  · exact (mark_read_amended msgDB groupMgr aliceU 20 5 m20 (by decide) (by decide)).1
      (by decide)
  · obtain ⟨res, hres, _, _, _, hlast⟩ :=
      (mark_read_amended msgDB groupMgr bobU 20 5 m20 (by decide) (by decide)).2
      (by decide)
    have : okEvents c4_first = res.events := by
      rw [show c4_first = .ok res from hres]
      rfl
    rw [this]
    exact hlast 2 (by decide) (by decide) (by decide)

/-- Store with 102 users (ids 0..101) and no conversations. -/
def c2_db : DB :=
  { users := (List.range 102).map (fun i => ⟨i, "u", "u", true⟩),
    conversations := [], participants := [], messages := [], friendships := [],
    reactions := [], next_id := 200 }

/-- User 0 creates a group with the 101 other users in one call. -/
def c2_create : Except ApiError HandlerResult :=
  create_conversation c2_db Manager.empty ⟨0, "u", "u", true⟩ .group (some "G")
    ((List.range 101).map (· + 1)) 0

set_option maxRecDepth 10000 in
/-- C2 counterexample: `create_conversation` performs no cap check, so a
group is born with 102 participants, violating the ≤ 100 invariant. -/
theorem group_created_over_cap :
    exceptOk c2_create = true ∧
    ((okDB c2_create c2_db).participantsOf 200).length = 102 := by
  decide

theorem batch_add_loop_count (me : User) (cid : Nat) :
    ∀ (uids : List Nat) (db : DB) (added : List User) (db' : DB) (added' : List User),
      batch_add_loop me cid uids db added = .ok (db', added') →
      (db'.participantsOf cid).length ≤ (db.participantsOf cid).length + uids.length := by
  intro uids
  induction uids with
  | nil =>
    intro db added db' added' hres
    simp only [batch_add_loop] at hres
    have h1 := Except.ok.inj hres
    have hdb : db = db' := congrArg Prod.fst h1
    rw [← hdb]
    simp
  | cons uid rest ih =>
    intro db added db' added' hres
    simp only [batch_add_loop] at hres
    split at hres
    · cases hres
    · split at hres
      · cases hres
      · split at hres
        · have := ih db added db' added' hres
          simp only [List.length_cons]
          omega
        · have hcount := ih _ _ db' added' hres
          have hgrow : (DB.participantsOf
              { db with participants := db.participants ++ [⟨cid, uid, none⟩] } cid).length =
              (db.participantsOf cid).length + 1 := by
            simp [DB.participantsOf, List.filter_append]
          rw [hgrow] at hcount
          simp only [List.length_cons]
          omega

/-- C2 amended: the single-add and batch-add endpoints preserve the
100-member cap (an add that would exceed it is rejected with no state
change, and any successful add leaves the group at ≤ 100 members), but
`create_conversation` enforces no cap at all, so the invariant fails at
group creation. -/
theorem group_cap_on_add_operations (db : DB) (mgr : Manager) (me : User)
    (cid uid : Nat) (uids : List Nat) (now : Nat) (conv : Conversation)
    (hconv : db.findConversation cid = some conv)
    (htype : conv.type = ConversationType.group)
    (hcreator : conv.created_by = me.id) :
    ((db.participantsOf cid).length ≥ 100 →
      add_participant db mgr me cid uid now =
        .error (.badRequest "Group has reached maximum 100 members")) ∧
    (∀ res, add_participant db mgr me cid uid now = .ok res →
      (res.db.participantsOf cid).length = (db.participantsOf cid).length + 1 ∧
      (res.db.participantsOf cid).length ≤ 100) ∧
    ((db.participantsOf cid).length + uids.length > 100 →
      add_participants_batch db mgr me cid uids now =
        .error (.badRequest "Group can have maximum 100 members")) ∧
    (∀ res, add_participants_batch db mgr me cid uids now = .ok res →
      (res.db.participantsOf cid).length ≤ 100) := by
  have htype' : ¬ conv.type ≠ ConversationType.group := by simp [htype]
  have hcreator' : ¬ conv.created_by ≠ me.id := by simp [hcreator]
  refine ⟨?_, ?_, ?_, ?_⟩
  · intro h100
    simp [add_participant, hconv, htype', hcreator', h100]
  · intro res hres
    simp only [add_participant, hconv] at hres
    rw [if_neg htype', if_neg hcreator'] at hres
    split at hres
    · cases hres
    · rename_i h100
      split at hres
      · cases hres
      · split at hres
        · cases hres
        · split at hres
          · cases hres
          · have hdb := (Except.ok.inj hres).symm
            subst hdb
            have hgrow : ∀ (M : List Message) (n : Nat) (f : Conversation → Conversation),
                (DB.participantsOf (DB.updateConversation ⟨db.users, db.conversations, db.participants ++ [⟨cid, uid, none⟩], M, db.friendships, db.reactions, n⟩ cid f) cid).length = (db.participantsOf cid).length + 1 := by
              intro M n f
              simp [DB.updateConversation, DB.participantsOf, List.filter_append]
            constructor
            · exact hgrow _ _ _
            · exact (hgrow _ _ _).trans_le (by omega)
  · intro hover
    simp [add_participants_batch, hconv, htype', hcreator', hover]
  · intro res hres
    simp only [add_participants_batch, hconv] at hres
    rw [if_neg htype', if_neg hcreator'] at hres
    split at hres
    · cases hres
    · rename_i hover
      split at hres
      · cases hres
      · rename_i pr db1 added hloop
        have hbound := batch_add_loop_count me cid uids db [] db1 added hloop
        have hsame : ∀ (M : List Message) (n : Nat) (f : Conversation → Conversation),
            (DB.participantsOf (DB.updateConversation ⟨db1.users, db1.conversations, db1.participants, M, db1.friendships, db1.reactions, n⟩ cid f) cid).length = (db1.participantsOf cid).length := by
          intro M n f
          simp [DB.updateConversation, DB.participantsOf]
        split at hres
        · have hdb := (Except.ok.inj hres).symm
          subst hdb
          show (db1.participantsOf cid).length ≤ 100
          omega
        · have hdb := (Except.ok.inj hres).symm
          subst hdb
          exact (hsame _ _ _).trans_le (by omega)

def daveU : User := ⟨3, "dave", "Dave", true⟩

/-- Group fixture with a fourth user who is Alice's accepted friend. -/
def c2w_db : DB :=
  { groupDB with users := [aliceU, bobU, carolU, daveU],
                 friendships := [⟨8, 0, 3, "accepted"⟩] }

def c2w_add : Except ApiError HandlerResult := add_participant c2w_db groupMgr aliceU 10 3 9

/-- Witness for C2 (amended): Alice adds Dave to group 10; the member
count grows by one and stays within the cap. -/
theorem group_cap_on_add_operations_witness :
    ((okDB c2w_add c2w_db).participantsOf 10).length = (c2w_db.participantsOf 10).length + 1 ∧
    ((okDB c2w_add c2w_db).participantsOf 10).length ≤ 100 :=
  (group_cap_on_add_operations c2w_db groupMgr aliceU 10 3 [] 9
    ⟨10, .group, some "G", 0, 0, 0⟩ (by decide) (by decide) (by decide)).2.1
    ⟨okDB c2w_add c2w_db, okMgr c2w_add groupMgr, okEvents c2w_add⟩ (by rfl)

/-- C9: a send by a non-member of the conversation is rejected with no
state change; a member's send persists the message, stamps the
conversation's last-activity time with the message's creation time, and
pushes exactly one `NEW_MESSAGE` event carrying the sender's identity to
every online tracked conversation member, the sender included (the
broadcast excludes nobody). -/
theorem send_message_spec (db : DB) (mgr : Manager) (me : User) (cid : Nat)
    (content : String) (fu ft fn : Option String) (now : Nat)
    (hnd : (mgr.user_conversations.map Prod.fst).Nodup)
    (hdir : ∀ p ∈ db.participants, p.conversation_id = cid →
      mgr.tracks p.user_id cid = true)
    (hconv : (db.findConversation cid).isSome = true) :
    (db.isParticipant cid me.id = false →
      send_message db mgr me cid content fu ft fn now =
        .error (.forbidden "You are not a participant in this conversation")) ∧
    (db.isParticipant cid me.id = true →
      ∃ res, send_message db mgr me cid content fu ft fn now = .ok res ∧
        (⟨db.next_id, cid, some me.id, content, fu, ft, fn, now, none, "false",
          none, none, none⟩ : Message) ∈ res.db.messages ∧
        (∀ c ∈ res.db.conversations, c.id = cid → c.updated_at = now) ∧
        (∀ u, db.isParticipant cid u = true → mgr.is_user_online u = true →
          res.events.filter (fun d => d.target = u) =
            [⟨u, WSEvent.newMessage cid db.next_id (some me.id) content⟩])) := by
  cases hc : db.findConversation cid with
  | none => rw [hc] at hconv; simp at hconv
  | some conv =>
    constructor
    · intro hnp
      simp [send_message, hnp]
    · intro hp
      have hmain : send_message db mgr me cid content fu ft fn now = .ok
          ⟨DB.updateConversation ⟨db.users, db.conversations, db.participants, db.messages ++ [⟨db.next_id, cid, some me.id, content, fu, ft, fn, now, none, "false", none, none, none⟩], db.friendships, db.reactions, db.next_id + 1⟩ cid (fun c => { c with updated_at := now }),
           mgr,
           mgr.broadcast_to_conversation
             (WSEvent.newMessage cid db.next_id (some me.id) content) cid none⟩ := by
        simp [send_message, hp, hc]
      refine ⟨_, hmain, ?_, ?_, ?_⟩
      · simp [DB.updateConversation]
      · intro c hcm hcid
        simp only [DB.updateConversation, List.mem_map] at hcm
        obtain ⟨c0, hc0, hce⟩ := hcm
        by_cases hcc : c0.id = cid
        · rw [if_pos hcc] at hce
          subst hce
          rfl
        · rw [if_neg hcc] at hce
          subst hce
          exact absurd hcid hcc
      · intro u hu hon
        have htr : mgr.tracks u cid = true := by
          have hex : ∃ p ∈ db.participants, p.conversation_id = cid ∧ p.user_id = u := by
            simpa [DB.isParticipant, DB.findParticipant] using hu
          obtain ⟨p, hpmem, hpc, hpu⟩ := hex
          have := hdir p hpmem hpc
          rwa [hpu] at this
        exact broadcast_exactly_once mgr _ cid none u hnd htr (by simp) hon

/-- Direct conversation 11 between Alice and Bob, both online. -/
def c9_db : DB :=
  { users := [aliceU, bobU],
    conversations := [⟨11, .direct, none, 0, 0, 0⟩],
    participants := [⟨11, 0, none⟩, ⟨11, 1, none⟩],
    messages := [], friendships := [], reactions := [], next_id := 100 }

def c9_mgr : Manager :=
  (ws_connect c9_db ((ws_connect c9_db Manager.empty 0 1000).1) 1 1001).1

def c9_send : Except ApiError HandlerResult :=
  send_message c9_db c9_mgr aliceU 11 "hi" none none none 7

/-- Witness for C9: Alice sends in the direct chat with Bob; Bob (online)
gets exactly one `NEW_MESSAGE` with `sender_id = Alice`, and so does Alice
herself (self-echo); Carol (a non-member) is rejected. -/
theorem send_message_spec_witness :
    send_message c9_db c9_mgr carolU 11 "x" none none none 7 =
      .error (.forbidden "You are not a participant in this conversation") ∧
    (okEvents c9_send).filter (fun d => d.target = 1) =
      [⟨1, WSEvent.newMessage 11 100 (some 0) "hi"⟩] ∧
    (okEvents c9_send).filter (fun d => d.target = 0) =
      [⟨0, WSEvent.newMessage 11 100 (some 0) "hi"⟩] := by
  refine ⟨?_, ?_, ?_⟩
  · exact (send_message_spec c9_db c9_mgr carolU 11 "x" none none none 7
      (by decide) (by decide) (by decide)).1 (by decide)
  · obtain ⟨res, hres, _, _, hone⟩ :=
      (send_message_spec c9_db c9_mgr aliceU 11 "hi" none none none 7
        (by decide) (by decide) (by decide)).2 (by decide)
    have hev : okEvents c9_send = res.events := by
      rw [show c9_send = .ok res from hres]
      rfl
    rw [hev]
    exact hone 1 (by decide) (by decide)
  · obtain ⟨res, hres, _, _, hone⟩ :=
      (send_message_spec c9_db c9_mgr aliceU 11 "hi" none none none 7
        (by decide) (by decide) (by decide)).2 (by decide)
    have hev : okEvents c9_send = res.events := by
      rw [show c9_send = .ok res from hres]
      rfl
    rw [hev]
    exact hone 0 (by decide) (by decide)

/-- Two-member group: Alice (creator) and Bob. -/
def pairDB : DB := { groupDB with participants := [⟨10, 0, none⟩, ⟨10, 1, none⟩] }

def pairMgr : Manager :=
  (ws_connect pairDB ((ws_connect pairDB Manager.empty 0 1000).1) 1 1001).1

def c6_rm : Except ApiError HandlerResult := remove_participant pairDB pairMgr aliceU 10 1

/-- Success projection of a value-returning endpoint. -/
def okValue : Except ApiError α → Option α
  | .ok a => some a
  | .error _ => none

/-- C6 counterexample: creator Alice removes Bob from the two-member group,
leaving exactly one member, but `remove_participant` performs no disband:
the conversation survives, no disband message is sent, and a subsequent
fetch still succeeds instead of returning NotFound. -/
theorem remove_to_one_member_no_disband :
    exceptOk c6_rm = true ∧
    ((okDB c6_rm pairDB).participantsOf 10).length = 1 ∧
    okValue (get_conversation (okDB c6_rm pairDB) aliceU 10) =
      some ⟨10, .group, some "G", 0, 0, 0⟩ ∧
    okEvents c6_rm = [] := by
  decide

theorem updateConversation_users (db : DB) (cid : Nat) (f : Conversation → Conversation) :
    (db.updateConversation cid f).users = db.users := rfl

theorem updateConversation_participants (db : DB) (cid : Nat) (f : Conversation → Conversation) :
    (db.updateConversation cid f).participants = db.participants := rfl

theorem updateConversation_messages (db : DB) (cid : Nat) (f : Conversation → Conversation) :
    (db.updateConversation cid f).messages = db.messages := rfl

theorem updateConversation_friendships (db : DB) (cid : Nat) (f : Conversation → Conversation) :
    (db.updateConversation cid f).friendships = db.friendships := rfl

theorem updateConversation_reactions (db : DB) (cid : Nat) (f : Conversation → Conversation) :
    (db.updateConversation cid f).reactions = db.reactions := rfl

theorem updateConversation_next_id (db : DB) (cid : Nat) (f : Conversation → Conversation) :
    (db.updateConversation cid f).next_id = db.next_id := rfl

theorem updateConversation_conversations (db : DB) (cid : Nat) (f : Conversation → Conversation) :
    (db.updateConversation cid f).conversations =
      db.conversations.map (fun c => if c.id = cid then f c else c) := rfl

theorem get_conversation_notFound (db0 : DB) (u : User) (cid : Nat)
    (h : db0.findConversation cid = none) :
    get_conversation db0 u cid =
      .error (.notFound "Conversation not found or you are not a participant") := by
  simp [get_conversation, h]

/-- C6 amended: when a member leaves (via `leave_conversation`) a group of
two, the group auto-disbands: the last member is sent the disband system
message, the conversation with all its participants and messages is
removed, and a subsequent fetch returns NotFound.  (Removal through
`remove_participant` does not trigger this path.) -/
theorem leave_last_member_disbands (db : DB) (mgr : Manager) (me : User)
    (cid : Nat) (now : Nat) (conv : Conversation) (pme pother : Participant)
    (hconv : db.findConversation cid = some conv)
    (htype : conv.type = ConversationType.group)
    (hisp : db.isParticipant cid me.id = true)
    (hpart : db.participants.filter (fun p => p.conversation_id = cid) = [pme, pother])
    (hme : pme.user_id = me.id) (hother : ¬ pother.user_id = me.id) :
    ∃ res, leave_conversation db mgr me cid now = .ok res ∧
      res.db.findConversation cid = none ∧
      (∀ p ∈ res.db.participants, ¬ p.conversation_id = cid) ∧
      (∀ m ∈ res.db.messages, ¬ m.conversation_id = cid) ∧
      (∀ u : User, get_conversation res.db u cid =
        .error (.notFound "Conversation not found or you are not a participant")) ∧
      res.events = mgr.send_personal_message
        (WSEvent.newMessage cid (db.next_id + 1) none
          "Nhóm đã tự động giải tán vì chỉ còn lại bạn") pother.user_id ∧
      (mgr.is_user_online pother.user_id = true →
        res.events = [⟨pother.user_id, WSEvent.newMessage cid (db.next_id + 1) none
          "Nhóm đã tự động giải tán vì chỉ còn lại bạn"⟩]) := by
  have hpme_c : pme.conversation_id = cid := by
    have hmem : pme ∈ db.participants.filter (fun p => p.conversation_id = cid) := by
      rw [hpart]; simp
    simpa using (List.mem_filter.mp hmem).2
  have hrem : (db.participants.filter
      (fun p => ¬ (p.conversation_id = cid ∧ p.user_id = me.id))).filter
      (fun p => p.conversation_id = cid) = [pother] := by
    rw [List.filter_comm, hpart]
    simp [List.filter_cons, hpme_c, hme, hother]
  simp only [leave_conversation, hisp, hconv, htype, not_true, if_false,
    updateConversation_users, updateConversation_conversations, updateConversation_participants,
    updateConversation_messages, updateConversation_friendships, updateConversation_reactions,
    updateConversation_next_id, DB.participantsOf, DB.deleteConversationCascade, hrem,
    if_true]
  have hlen : ([pother] : List Participant).length = 1 := rfl
  rw [if_pos hlen]
  simp only [List.map_cons, List.map_nil, List.headD_cons]
  refine ⟨_, rfl, ?_, ?_, ?_, ?_, rfl, ?_⟩
  · simp only [DB.findConversation]
    rw [List.find?_eq_none]
    intro c hc
    have h2 := (List.mem_filter.mp hc).2
    simp only [decide_eq_true_eq] at h2 ⊢
    exact h2
  · intro p hp
    have h2 := (List.mem_filter.mp hp).2
    simpa using h2
  · intro m hm
    have h2 := (List.mem_filter.mp hm).2
    simpa using h2
  · intro u
    apply get_conversation_notFound
    simp only [DB.findConversation]
    rw [List.find?_eq_none]
    intro c hc
    have h2 := (List.mem_filter.mp hc).2
    simp only [decide_eq_true_eq] at h2 ⊢
    exact h2
  · intro hon
    exact send_personal_message_online mgr _ pother.user_id hon

def c6_leave : Except ApiError HandlerResult := leave_conversation pairDB pairMgr aliceU 10 5

/-- Witness for C6 (amended): Alice leaves the two-member group 10; Bob is
sent the disband system message and the conversation is gone. -/
theorem leave_last_member_disbands_witness :
    (okDB c6_leave pairDB).findConversation 10 = none ∧
    okEvents c6_leave =
      [⟨1, WSEvent.newMessage 10 101 none "Nhóm đã tự động giải tán vì chỉ còn lại bạn"⟩] := by
  obtain ⟨res, hres, h1, _, _, _, _, h6⟩ :=
    leave_last_member_disbands pairDB pairMgr aliceU 10 5
      ⟨10, .group, some "G", 0, 0, 0⟩ ⟨10, 0, none⟩ ⟨10, 1, none⟩
      (by decide) (by decide) (by decide) (by decide) (by decide) (by decide)
  have hdb : okDB c6_leave pairDB = res.db := by
    rw [show c6_leave = .ok res from hres]
    rfl
  have hev : okEvents c6_leave = res.events := by
    rw [show c6_leave = .ok res from hres]
    rfl
  rw [hdb, hev]
  exact ⟨h1, h6 (by decide)⟩

end ChatApp
